import Mathlib

/-!
# Verification of the BDPT core (`src/src/integrators/bdpt.h`)

A shallow embedding of the bidirectional path tracer's vertex model and
MIS bookkeeping.  Geometry (`Float`, `Vector3f`, `Point3f`, `Normal3f`) is
modelled over `ℝ`; `Spectrum` is modelled as a single real channel (spectral
arithmetic is a declared non-goal of the spec).  External collaborators
(Camera, Light, BSDF, phase function, primitive) appear as records of the
query functions the core calls on them, exactly the narrow contracts of
spec §6.  Pointers become `Option`; the source's pointer identity on lights
becomes equality of a stable `id` field, following spec §9's design note
("model as a reference/handle ... by index or stable identifier").
-/

open Classical

/-- 3-vector over ℝ; models pbrt's `Vector3f` / `Point3f` / `Normal3f`. -/
structure Vec3 where
  x : ℝ
  y : ℝ
  z : ℝ

namespace Vec3

def zero : Vec3 := ⟨0, 0, 0⟩

instance : Inhabited Vec3 := ⟨zero⟩

noncomputable def sub (a b : Vec3) : Vec3 := ⟨a.x - b.x, a.y - b.y, a.z - b.z⟩

noncomputable def neg (a : Vec3) : Vec3 := ⟨-a.x, -a.y, -a.z⟩

noncomputable def smul (t : ℝ) (a : Vec3) : Vec3 := ⟨t * a.x, t * a.y, t * a.z⟩

noncomputable def dot (a b : Vec3) : ℝ := a.x * b.x + a.y * b.y + a.z * b.z

/-- `Vector3f::LengthSquared`. -/
noncomputable def lengthSquared (a : Vec3) : ℝ := a.dot a

/-- `Vector3f::Length`. -/
noncomputable def length (a : Vec3) : ℝ := Real.sqrt a.lengthSquared

/-- pbrt `Normalize(v) = v / v.Length()`. -/
noncomputable def normalize (a : Vec3) : Vec3 := smul (1 / a.length) a

end Vec3

/-- pbrt `AbsDot`. -/
noncomputable def absDot (a b : Vec3) : ℝ := |Vec3.dot a b|

/-- pbrt `Ray` (origin, direction, time; the medium member plays no role in
any verified property and is omitted). -/
structure Ray where
  o : Vec3
  d : Vec3
  time : ℝ

/-- `ray(t) = o + t*d`. -/
noncomputable def Ray.at (r : Ray) (t : ℝ) : Vec3 :=
  ⟨r.o.x + t * r.d.x, r.o.y + t * r.d.y, r.o.z + t * r.d.z⟩

/-- Base `Interaction`: position, time, geometric normal.  The default
constructor `Interaction()` zero-initializes all three. -/
structure Interaction where
  p : Vec3 := Vec3.zero
  time : ℝ := 0
  n : Vec3 := Vec3.zero

instance : Inhabited Interaction := ⟨{}⟩

/-- External collaborator `Camera` (spec §6): only the directional-PDF query
`Camera::Pdf(const Interaction &, const Vector3f &)` used by `Vertex::Pdf`. -/
structure Camera where
  pdf : Interaction → Vec3 → ℝ

instance : Inhabited Camera := ⟨⟨fun _ _ => 0⟩⟩

-- `LightFlags` bit values from `light.h`.
namespace LightFlags

def deltaPosition : ℕ := 1
def deltaDirection : ℕ := 2
def area : ℕ := 4
def infinite : ℕ := 8

end LightFlags

/-- `::IsDeltaLight(flags)` from `light.h`: true when either delta bit is set. -/
def IsDeltaLightFlags (flags : ℕ) : Bool :=
  (flags &&& LightFlags.deltaPosition ≠ 0) || (flags &&& LightFlags.deltaDirection ≠ 0)

/-- External collaborator `Light` (spec §6): classification flags and the two
PDF queries the core calls.  `Light::Pdf(ray, n, &pdfPos, &pdfDir)` is split
into its two output components `pdfPos` / `pdfDir`; `pdfLi` is the overload
`Light::Pdf(const Interaction &, const Vector3f &)` used by
`InfiniteLightDensity`.  `id` is a stable identifier standing in for the
object's address: the source's pointer comparison of lights becomes equality
of `id`. -/
structure Light where
  id : ℕ
  flags : ℕ
  pdfPos : Ray → Vec3 → ℝ
  pdfDir : Ray → Vec3 → ℝ
  pdfLi : Interaction → Vec3 → ℝ

instance : Inhabited Light := ⟨⟨0, 0, fun _ _ => 0, fun _ _ => 0, fun _ _ => 0⟩⟩

-- `BxDFType` bit values from `reflection.h`.
namespace BxDFType

def reflection : ℕ := 1
def transmission : ℕ := 2
def diffuse : ℕ := 4
def glossy : ℕ := 8
def specular : ℕ := 16

end BxDFType

/-- The component mask `BSDF_DIFFUSE | BSDF_GLOSSY | BSDF_REFLECTION |
BSDF_TRANSMISSION` used by `Vertex::IsConnectable` (bdpt.h:230-232). -/
def connectableMask : ℕ :=
  BxDFType.diffuse ||| BxDFType.glossy ||| BxDFType.reflection ||| BxDFType.transmission

/-- External collaborator `BSDF` (spec §6): component counting, directional
PDF, and reflectance evaluation. -/
structure BSDF where
  NumComponents : ℕ → ℕ
  pdf : Vec3 → Vec3 → ℝ
  f : Vec3 → Vec3 → ℝ

instance : Inhabited BSDF := ⟨⟨fun _ => 0, fun _ _ => 0, fun _ _ => 0⟩⟩

/-- External collaborator phase function (spec §6). -/
structure PhaseFunction where
  p : Vec3 → Vec3 → ℝ

instance : Inhabited PhaseFunction := ⟨⟨fun _ _ => 0⟩⟩

/-- The only primitive query the core uses: `Primitive::GetAreaLight()`
(null pointer when the primitive is not emissive). -/
structure Primitive where
  areaLight : Option Light

instance : Inhabited Primitive := ⟨⟨none⟩⟩

/-- `SurfaceInteraction`: the base interaction plus the shading normal,
outgoing direction, attached BSDF and the primitive that was hit. -/
structure SurfaceInteraction extends Interaction where
  shadingN : Vec3 := Vec3.zero
  wo : Vec3 := Vec3.zero
  bsdf : BSDF := default
  primitive : Primitive := default

instance : Inhabited SurfaceInteraction := ⟨{}⟩

/-- `MediumInteraction`: base interaction plus phase function and `wo`. -/
structure MediumInteraction extends Interaction where
  wo : Vec3 := Vec3.zero
  phase : PhaseFunction := default

instance : Inhabited MediumInteraction := ⟨{}⟩

/-- `EndpointInteraction` (bdpt.h:53-74): an `Interaction` together with the
camera/light pointer union.  The union is modelled as two `Option` fields of
which the constructors set at most one (the source never reads the member
that was not stored). -/
structure EndpointInteraction extends Interaction where
  camera : Option Camera := none
  light : Option Light := none

instance : Inhabited EndpointInteraction := ⟨{}⟩

namespace EndpointInteraction

/-- `EndpointInteraction(const Interaction &it, const Camera *camera)`. -/
def ofInteractionCamera (it : Interaction) (c : Camera) : EndpointInteraction :=
  { toInteraction := it, camera := some c }

/-- `EndpointInteraction(const Camera *camera, const Ray &ray)`. -/
def ofCameraRay (c : Camera) (r : Ray) : EndpointInteraction :=
  { toInteraction := { p := r.o, time := r.time }, camera := some c }

/-- `EndpointInteraction(const Light *light, const Ray &r, const Normal3f &n)`. -/
def ofLightRay (l : Light) (r : Ray) (nrm : Vec3) : EndpointInteraction :=
  { toInteraction := { p := r.o, time := r.time, n := nrm }, light := some l }

/-- `EndpointInteraction(const Interaction &it, const Light *light)`. -/
def ofInteractionLight (it : Interaction) (l : Option Light) : EndpointInteraction :=
  { toInteraction := it, light := l }

/-- `EndpointInteraction(const Ray &ray)` (bdpt.h:70-73): the implicit
"escaped to infinity" endpoint.  Position is the ray evaluated at parameter
1, the normal is the negated ray direction, and the light pointer is null. -/
noncomputable def ofRay (r : Ray) : EndpointInteraction :=
  { toInteraction := { p := r.at 1, time := r.time, n := Vec3.neg r.d }, light := none }

end EndpointInteraction

/-- `enum class VertexType` (bdpt.h:132). -/
inductive VertexType
  | Camera
  | Light
  | Surface
  | Medium
deriving DecidableEq, Repr

/-- The `InteractionAggregate` union (bdpt.h:144-157). -/
inductive VertexPayload
  | ei (e : EndpointInteraction)
  | mi (m : MediumInteraction)
  | isect (s : SurfaceInteraction)

instance : Inhabited VertexPayload := ⟨.ei default⟩

namespace VertexPayload

/-- Read the `ei` union member (arbitrary default on the inactive variants,
which the source never reads). -/
def eiD : VertexPayload → EndpointInteraction
  | .ei e => e
  | _ => default

/-- Read the `mi` union member. -/
def miD : VertexPayload → MediumInteraction
  | .mi m => m
  | _ => default

/-- Read the `isect` union member. -/
def isectD : VertexPayload → SurfaceInteraction
  | .isect s => s
  | _ => default

end VertexPayload

/-- `struct Vertex` (bdpt.h:134-325): discriminant, accumulated weight
(one spectral channel), forward/reverse area densities, delta flag, and the
interaction payload. -/
structure Vertex where
  type : VertexType
  weight : ℝ := 0
  pdfFwd : ℝ := 0
  pdfRev : ℝ := 0
  delta : Bool := false
  interaction : VertexPayload

namespace Vertex

/-- `Vertex::GetInteraction` (bdpt.h:168-177): dispatch on the discriminant. -/
def GetInteraction (v : Vertex) : Interaction :=
  match v.type with
  | .Medium => v.interaction.miD.toInteraction
  | .Surface => v.interaction.isectD.toInteraction
  | _ => v.interaction.eiD.toInteraction

/-- `Vertex::GetPosition`. -/
def GetPosition (v : Vertex) : Vec3 := v.GetInteraction.p

/-- `Vertex::GetTime`. -/
def GetTime (v : Vertex) : ℝ := v.GetInteraction.time

/-- `Vertex::GetGeoNormal`. -/
def GetGeoNormal (v : Vertex) : Vec3 := v.GetInteraction.n

/-- `Vertex::GetShadingNormal` (bdpt.h:181-186). -/
def GetShadingNormal (v : Vertex) : Vec3 :=
  if v.type = .Surface then v.interaction.isectD.shadingN else v.GetInteraction.n

/-- `Vertex::IsOnSurface` (bdpt.h:214): geometric normal differs from
`Normal3f()` (the zero normal). -/
def IsOnSurface (v : Vertex) : Prop := v.GetGeoNormal ≠ Vec3.zero

/-- `Vertex::IsConnectable` (bdpt.h:227-236). -/
def IsConnectable (v : Vertex) : Bool :=
  match v.type with
  | .Surface => v.interaction.isectD.bsdf.NumComponents connectableMask > 0
  | _ => true

/-- `Vertex::IsLight` (bdpt.h:237-241). -/
def IsLight (v : Vertex) : Bool :=
  v.type == .Light ||
    (v.type == .Surface && v.interaction.isectD.primitive.areaLight.isSome)

/-- `Vertex::IsDeltaLight` (bdpt.h:242-245): Light type, non-null light
pointer, and a delta flag on the light. -/
def IsDeltaLight (v : Vertex) : Bool :=
  v.type == .Light &&
    match v.interaction.eiD.light with
    | some l => IsDeltaLightFlags l.flags
    | none => false

/-- `Vertex::IsInfiniteLight` (bdpt.h:246-249): Light type and either a null
light pointer or the `Infinite` flag. -/
def IsInfiniteLight (v : Vertex) : Bool :=
  v.type == .Light &&
    match v.interaction.eiD.light with
    | none => true
    | some l => l.flags == LightFlags.infinite

end Vertex

/-- External collaborator `Scene` (spec §6): the light collection and the
world bounding sphere (`scene.WorldBound().BoundingSphere(&c, &r)` is folded
into the `worldCenter` / `worldRadius` fields). -/
structure Scene where
  lights : List Light
  worldCenter : Vec3 := Vec3.zero
  worldRadius : ℝ := 0

/-- External collaborator `Distribution1D` (spec §6): the per-light weights
`func`, their integral `funcInt`; `Count() = func.size()`. -/
structure Distribution1D where
  func : List ℝ
  funcInt : ℝ

/-- `Distribution1D::Count()`. -/
def Distribution1D.Count (d : Distribution1D) : ℕ := d.func.length

/-- `InfiniteLightDensity` (bdpt.h:79-87): sum `light->Pdf(Interaction(), -d)
* lightDistr.func[i]` over every light flagged `Infinite`, divided by
`funcInt * Count()`. -/
noncomputable def InfiniteLightDensity (scene : Scene) (lightDistr : Distribution1D)
    (d : Vec3) : ℝ :=
  ((List.range scene.lights.length).foldl
      (fun pdf i =>
        if (scene.lights.getD i default).flags == LightFlags.infinite then
          pdf + (scene.lights.getD i default).pdfLi {} (Vec3.neg d) *
            lightDistr.func.getD i 0
        else pdf) 0) /
    (lightDistr.funcInt * (lightDistr.Count : ℝ))

namespace Vertex

/-- The light reference used by `PdfLight` / `PdfLightOrigin`
(bdpt.h:252-254, 277-279): the endpoint's light pointer for a Light vertex,
otherwise the hit primitive's area light. -/
def lightRef (v : Vertex) : Option Light :=
  match v.type with
  | .Light => v.interaction.eiD.light
  | _ => v.interaction.isectD.primitive.areaLight

/-- `Vertex::PdfLight` (bdpt.h:250-272).  `d` is the normalized direction to
the target `u` (the source computes it as `d * sqrt(invL2)`); infinite
lights use the planar density `1/(π r²)`, other lights evaluate
`light->Pdf` and scale by `invL2`; a target on a surface contributes its
absolute cosine. -/
noncomputable def PdfLight (v : Vertex) (scene : Scene) (u : Vertex) : ℝ :=
  let d0 : Vec3 := Vec3.sub u.GetPosition v.GetPosition
  let invL2 : ℝ := 1 / d0.lengthSquared
  let d : Vec3 := Vec3.smul (Real.sqrt invL2) d0
  let pdf : ℝ :=
    if v.IsInfiniteLight then
      1 / (Real.pi * scene.worldRadius * scene.worldRadius)
    else
      (v.lightRef.getD default).pdfDir ⟨v.GetPosition, d, v.GetTime⟩ v.GetGeoNormal *
        invL2
  if u.IsOnSurface then pdf * absDot u.GetGeoNormal d else pdf

/-- The discrete light-choice probability loop of `Vertex::PdfLightOrigin`
(bdpt.h:284-292): scan `scene.lights` for the pointer-equal light (modelled
by `id` equality, first match wins as with the source's `break`) and return
`func[i] / (funcInt * Count())`; zero when no light matches. -/
noncomputable def pdfChoiceOf (scene : Scene) (lightDistr : Distribution1D)
    (l : Light) : ℝ :=
  match (List.range scene.lights.length).find?
      (fun i => (scene.lights.getD i default).id == l.id) with
  | some i => lightDistr.func.getD i 0 / (lightDistr.funcInt * (lightDistr.Count : ℝ))
  | none => 0

/-- `Vertex::PdfLightOrigin` (bdpt.h:273-298). -/
noncomputable def PdfLightOrigin (v : Vertex) (scene : Scene) (u : Vertex)
    (lightDistr : Distribution1D) : ℝ :=
  let d : Vec3 := Vec3.normalize (Vec3.sub u.GetPosition v.GetPosition)
  if v.IsInfiniteLight then
    InfiniteLightDensity scene lightDistr d
  else
    let l : Light := v.lightRef.getD default
    l.pdfPos ⟨v.GetPosition, d, v.GetTime⟩ v.GetGeoNormal *
      pdfChoiceOf scene lightDistr l

/-- The directional-density dispatch inside `Vertex::Pdf` (bdpt.h:195-209),
reached only after the Light early return.  The second component records
whether the `default:` branch emitted its `Error("Vertex::Pdf():
Unimplemented")` diagnostic; that branch returns a zero density. -/
noncomputable def pdfDirLogged (v : Vertex) (wp wn : Vec3) : ℝ × Bool :=
  match v.type with
  | .Camera => ((v.interaction.eiD.camera.getD default).pdf
                  v.interaction.eiD.toInteraction wn, false)
  | .Surface => (v.interaction.isectD.bsdf.pdf wp wn, false)
  | .Medium => (v.interaction.miD.phase.p wp wn, false)
  | .Light => (0, true)

/-- `Vertex::f` (bdpt.h:215-226) with its diagnostic made explicit: the
second component records whether the `default:` branch emitted
`Error("Vertex::f(): Unimplemented")`; that branch returns `Spectrum(0.f)`. -/
noncomputable def fLogged (v next : Vertex) : ℝ × Bool :=
  let wi : Vec3 := Vec3.normalize (Vec3.sub next.GetPosition v.GetPosition)
  match v.type with
  | .Surface => (v.interaction.isectD.bsdf.f v.interaction.isectD.wo wi, false)
  | .Medium => (v.interaction.miD.phase.p v.interaction.miD.wo wi, false)
  | _ => (0, true)

/-- `Vertex::f`'s return value. -/
noncomputable def f (v next : Vertex) : ℝ := (v.fLogged next).1

end Vertex

/-- Modelled from the spec: `ConvertDensity` is declared at bdpt.h:78 but its
body is not under `src/`.  Spec §4.2: an infinite-light `next` keeps the
directional density unchanged; otherwise the density is scaled by
`1/d²`, with the absolute cosine against `next`'s geometric normal applied
only when `next` lies on a surface (the direction being the normalized
connection vector). -/
noncomputable def ConvertDensity (cur : Vertex) (pdf : ℝ) (next : Vertex) : ℝ :=
  if next.IsInfiniteLight then pdf
  else
    let w : Vec3 := Vec3.sub next.GetPosition cur.GetPosition
    let invDist2 : ℝ := 1 / w.lengthSquared
    let pdf2 : ℝ :=
      if next.IsOnSurface then
        pdf * absDot next.GetGeoNormal (Vec3.smul (Real.sqrt invDist2) w)
      else pdf
    pdf2 * invDist2

/-- `Vertex::Pdf` (bdpt.h:187-213): Light vertices delegate to `PdfLight`;
otherwise the directional density from `pdfDirLogged` is converted to an
area density at `next`.  A null `prev` leaves `wp` zero-initialized, as the
default-constructed `Vector3f` does. -/
noncomputable def Vertex.Pdf (v : Vertex) (scene : Scene) (prev : Option Vertex)
    (next : Vertex) : ℝ :=
  if v.type == .Light then v.PdfLight scene next
  else
    let wn : Vec3 := Vec3.normalize (Vec3.sub next.GetPosition v.GetPosition)
    let wp : Vec3 :=
      match prev with
      | some pv => Vec3.normalize (Vec3.sub pv.GetPosition v.GetPosition)
      | none => Vec3.zero
    ConvertDensity v (v.pdfDirLogged wp wn).1 next

/-- `ScopedAssign<Type>` (bdpt.h:89-107).  The template is generic over the
value type; the pointer `Type *target` is modelled as an optional address
into an explicit store `ι → α`. -/
structure ScopedAssign (ι : Type) (α : Type) where
  target : Option ι
  backup : α

namespace ScopedAssign

/-- The constructor `ScopedAssign(Type *ptr = nullptr, Type value = Type())`
(bdpt.h:92-97): with a non-null target it saves `*target` into `backup` and
installs `value`; with a null target the store is untouched and `backup`
keeps its default-initialized value.  Returns the guard and the updated
store. -/
def construct [DecidableEq ι] [Inhabited α] (ptr : Option ι) (value : α)
    (store : ι → α) : ScopedAssign ι α × (ι → α) :=
  match ptr with
  | some a => (⟨some a, store a⟩, Function.update store a value)
  | none => (⟨none, default⟩, store)

/-- The destructor `~ScopedAssign` (bdpt.h:104-106): writes `backup` back
through a non-null target, does nothing otherwise. -/
def destruct [DecidableEq ι] (g : ScopedAssign ι α) (store : ι → α) : ι → α :=
  match g.target with
  | some a => Function.update store a g.backup
  | none => store

/-- The move-assignment `operator=(ScopedAssign &&)` (bdpt.h:98-103): the
destination takes over target and backup, the source's target is nulled
(its backup member is left as is).  Returns (new destination, new source). -/
def moveAssign (dst src : ScopedAssign ι α) : ScopedAssign ι α × ScopedAssign ι α :=
  (⟨src.target, src.backup⟩, ⟨none, src.backup⟩)

/-- A chain of `k` move-assignments out of guard `g`, each into a fresh
default-constructed guard: returns the list of moved-from husks and the
final owner. -/
def moveChain [Inhabited α] (g : ScopedAssign ι α) :
    ℕ → List (ScopedAssign ι α) × ScopedAssign ι α
  | 0 => ([], g)
  | k + 1 =>
      let (husks, owner) := moveChain g k
      let (newOwner, husk) := moveAssign ⟨none, default⟩ owner
      (husks ++ [husk], newOwner)

/-- Run the destructors of a list of guards, in order. -/
def destructAll [DecidableEq ι] (gs : List (ScopedAssign ι α)) (store : ι → α) :
    ι → α :=
  gs.foldl (fun st g => destruct g st) store

end ScopedAssign

/-- Construct one scope-guarded assignment per `(address, value)` pair in
order, run `eval` on the fully overwritten store, then run the guards'
destructors in reverse construction order — exactly the lifetime C++ gives
a block of local `ScopedAssign` values. -/
def withScopedAssigns [DecidableEq ι] [Inhabited α] :
    List (ι × α) → ((ι → α) → β) → (ι → α) → β × (ι → α)
  | [], eval, store => (eval store, store)
  | (a, v) :: rest, eval, store =>
      let (g, store1) := ScopedAssign.construct (some a) v store
      let (r, store2) := withScopedAssigns rest eval store1
      (r, ScopedAssign.destruct g store2)

/-- Restoring in reverse construction order recovers the original store, even
when addresses repeat. -/
theorem withScopedAssigns_restores [DecidableEq ι] [Inhabited α]
    (l : List (ι × α)) (eval : (ι → α) → β) (store : ι → α) :
    (withScopedAssigns l eval store).2 = store := by
  induction l generalizing store with
  | nil => rfl
  | cons hd tl ih =>
      obtain ⟨a, v⟩ := hd
      simp only [withScopedAssigns, ScopedAssign.construct, ScopedAssign.destruct, ih]
      funext b
      by_cases hb : b = a
      · subst hb; simp [Function.update]
      · simp [Function.update, hb]

/-- Addresses of the `pdfFwd` / `pdfRev` fields of the two subpath arrays
handed to `ConnectBDPT`. -/
inductive PdfAddr
  | lightFwd (i : ℕ)
  | lightRev (i : ℕ)
  | camFwd (i : ℕ)
  | camRev (i : ℕ)
deriving DecidableEq

/-- Modelled from the spec: the body of `ConnectBDPT` (declared at
bdpt.h:337-341) is not under `src/`.  Spec §4.4: the early exits (a
non-connectable endpoint, an occluded shadow ray, an `s = 0` path whose tip
is not a light) yield a zero contribution without touching the vertex
arrays; otherwise the MIS weight is computed with the inward-facing density
fields of the vertices adjacent to the new edge temporarily overwritten
through scope-guarded assignments that restore on scope exit.  The store is
the pdf fields of both arrays; the recomputed densities and the
strategy-density walk are oracle parameters (their values are irrelevant to
the frame property). -/
def connectBDPT (store : PdfAddr → ℝ) (s t : ℕ) (connectable : Bool)
    (occluded : Bool) (recomputed : List (PdfAddr × ℝ))
    (weightEval : (PdfAddr → ℝ) → ℝ) (contrib : ℝ) : ℝ × (PdfAddr → ℝ) :=
  if !connectable || occluded then (0, store)
  else
    (contrib * (withScopedAssigns recomputed weightEval store).1,
      (withScopedAssigns recomputed weightEval store).2)

/-- Modelled from the spec: one vertex of the fused `s+t`-vertex path walked
by `ConnectBDPT`'s MIS computation (bdpt.h:337-341; the body is not under
`src/`).  Spec §4.4: each vertex carries forward/reverse area densities and
a `delta` flag; densities are modelled exactly over `ℚ`. -/
structure FusedVertex where
  pdfFwd : ℚ
  pdfRev : ℚ
  delta : Bool

/-- Spec §4.4: a `delta` vertex is excluded from a strategy's density
product — it contributes a factor of 1. -/
def FusedVertex.effFwd (v : FusedVertex) : ℚ := if v.delta then 1 else v.pdfFwd

def FusedVertex.effRev (v : FusedVertex) : ℚ := if v.delta then 1 else v.pdfRev

/-- Modelled from the spec (§4.4): the sampling density of the `(s', t')`
decomposition with `s' + t' = n` of a fused `n`-vertex path — "the product
of each vertex's `pdfFwd` (or `pdfRev` depending on direction)": the first
`s'` vertices were generated forward from the light, the remaining `t'`
backward from the camera. -/
def strategyDensity (path : List FusedVertex) (s : ℕ) : ℚ :=
  ((path.take s).map FusedVertex.effFwd).prod *
    ((path.drop s).map FusedVertex.effRev).prod

/-- The strategies enumerated by the render driver for a fused path of
`n` vertices (spec §4.5: `t' ≥ 1`, so `s'` ranges over `0 .. n-1`). -/
def strategies (path : List FusedVertex) : Finset ℕ := Finset.range path.length

/-- Modelled from the spec (§4.4): the balance-heuristic MIS weight of the
chosen strategy `s`, "1 / Σ over all valid (s′,t′) of the ratio of that
strategy's total sampling density to the density of the chosen strategy". -/
def misWeight (path : List FusedVertex) (s : ℕ) : ℚ :=
  1 / ∑ i ∈ strategies path, strategyDensity path i / strategyDensity path s

/-- Modelled from the spec: one step of the random walk of §4.3.  The walk
either terminates (depth reached or a zero-probability sampling event),
bounces to a next surface/medium vertex, or escapes to infinity — producing
one final implicit vertex and stopping. -/
inductive WalkStep
  | terminate
  | bounce (v : Vertex)
  | escape (v : Vertex)

/-- The iterative random walk of §4.3, with the sampling/intersection oracle
`step` indexed by the bounce number and `fuel` remaining bounces. -/
def randomWalk (step : ℕ → WalkStep) : ℕ → ℕ → List Vertex
  | _, 0 => []
  | i, fuel + 1 =>
      match step i with
      | .terminate => []
      | .escape v => [v]
      | .bounce v => v :: randomWalk step (i + 1) fuel

/-- Modelled from the spec: the body of `GenerateCameraSubpath` (declared at
bdpt.h:327-330) is not under `src/`.  Spec §4.3: write the anchor (the
camera sample position) as vertex 0, then perform the random walk; return
the written path together with the count of vertices written. -/
def GenerateCameraSubpath (anchor : Vertex) (step : ℕ → WalkStep)
    (maxdepth : ℕ) : List Vertex × ℕ :=
  let path := anchor :: randomWalk step 0 maxdepth
  (path, path.length)

/-- Modelled from the spec: the body of `GenerateLightSubpath` (declared at
bdpt.h:332-335) is not under `src/`.  Same walk shape as the camera
generator, anchored at the sampled light. -/
def GenerateLightSubpath (anchor : Vertex) (step : ℕ → WalkStep)
    (maxdepth : ℕ) : List Vertex × ℕ :=
  let path := anchor :: randomWalk step 0 maxdepth
  (path, path.length)

/-- The walk writes at most `fuel` vertices. -/
theorem randomWalk_length_le (step : ℕ → WalkStep) :
    ∀ i fuel, (randomWalk step i fuel).length ≤ fuel := by
  intro i fuel
  induction fuel generalizing i with
  | zero => simp [randomWalk]
  | succ n ih =>
      simp only [randomWalk]
      cases step i with
      | terminate => simp
      | escape v => simp
      | bounce v => simpa using Nat.succ_le_succ (ih (i + 1))

/-! ## Helper lemmas -/

theorem Vec3.dot_comm (a b : Vec3) : a.dot b = b.dot a := by
  simp only [Vec3.dot]; ring

theorem Vec3.dot_smul_right (a : Vec3) (t : ℝ) (b : Vec3) :
    a.dot (Vec3.smul t b) = t * a.dot b := by
  simp only [Vec3.dot, Vec3.smul]; ring

theorem Vec3.lengthSquared_nonneg (a : Vec3) : 0 ≤ a.lengthSquared := by
  simp only [Vec3.lengthSquared, Vec3.dot]
  have hx := mul_self_nonneg a.x
  have hy := mul_self_nonneg a.y
  have hz := mul_self_nonneg a.z
  linarith

theorem Vec3.sq_length (a : Vec3) : a.length ^ 2 = a.lengthSquared := by
  simp only [Vec3.length]
  exact Real.sq_sqrt a.lengthSquared_nonneg

/-! ## Claim C4 -/

/-- C4: `IsConnectable()` returns false exactly when the vertex is a Surface
vertex whose BSDF has zero components of diffuse, glossy, reflective, or
transmissive type (pure specular); it returns true for every Camera, Light,
and Medium vertex and for every Surface vertex with at least one
non-specular component. -/
theorem isConnectable_false_iff_pure_specular (v : Vertex) :
    v.IsConnectable = false ↔
      v.type = VertexType.Surface ∧
        v.interaction.isectD.bsdf.NumComponents connectableMask = 0 := by
  cases htype : v.type <;> simp [Vertex.IsConnectable, htype]

/-! ## Claim C9 -/

/-- C9: a Light vertex whose light reference is null (as produced for a path
that escaped to infinity via `EndpointInteraction(const Ray &)`, which
stores a null light) is classified as an infinite light but never as a
delta light. -/
theorem nullLight_vertex_not_delta (v : Vertex)
    (h1 : v.type = VertexType.Light)
    (h2 : v.interaction.eiD.light = none) :
    v.IsDeltaLight = false ∧ v.IsInfiniteLight = true ∧
      ∀ r : Ray, (EndpointInteraction.ofRay r).light = none := by
  refine ⟨?_, ?_, fun r => rfl⟩ <;>
    simp [Vertex.IsDeltaLight, Vertex.IsInfiniteLight, h1, h2]

/-- Witness for C9 at a concrete escaped-to-infinity vertex. -/
noncomputable def escapedVertex : Vertex :=
  { type := VertexType.Light,
    interaction := .ei (EndpointInteraction.ofRay ⟨Vec3.zero, ⟨1, 0, 0⟩, 0⟩) }

theorem nullLight_vertex_not_delta_witness :
    escapedVertex.type = VertexType.Light ∧
      escapedVertex.interaction.eiD.light = none ∧
      escapedVertex.IsDeltaLight = false ∧ escapedVertex.IsInfiniteLight = true :=
  ⟨rfl, rfl,
    (nullLight_vertex_not_delta escapedVertex rfl rfl).1,
    (nullLight_vertex_not_delta escapedVertex rfl rfl).2.1⟩

/-! ## Claim C7 -/

/-- C7: invoking a surface-only operation on an incompatible variant — `f`
on a Camera or Light vertex, the directional-density dispatch of `Pdf` on a
Light-typed vertex — emits the `Error` diagnostic and returns a zero-valued
result (zero spectrum, zero pdf) instead of aborting. -/
theorem mismatched_dispatch_zero (v next : Vertex) (wp wn : Vec3)
    (h : v.type = VertexType.Camera ∨ v.type = VertexType.Light) :
    v.fLogged next = (0, true) ∧ v.f next = 0 ∧
      (v.type = VertexType.Light → v.pdfDirLogged wp wn = (0, true)) := by
  rcases h with h | h <;>
    simp [Vertex.fLogged, Vertex.f, Vertex.pdfDirLogged, h]

/-- Witness for C7 at a concrete Light vertex. -/
theorem mismatched_dispatch_zero_witness :
    (escapedVertex.type = VertexType.Camera ∨
        escapedVertex.type = VertexType.Light) ∧
      escapedVertex.fLogged escapedVertex = (0, true) ∧
      escapedVertex.f escapedVertex = 0 ∧
      escapedVertex.pdfDirLogged Vec3.zero Vec3.zero = (0, true) := by
  have h := mismatched_dispatch_zero escapedVertex escapedVertex Vec3.zero Vec3.zero
    (Or.inr rfl)
  exact ⟨Or.inr rfl, h.1, h.2.1, h.2.2 rfl⟩

/-! ## Claim C6 -/

/-- C6: both subpath generators return a vertex count never exceeding
`maxdepth + 1`, equal to the number of vertices actually written, and the
written path's vertex 0 is the anchor. -/
theorem generateSubpath_count_and_anchor (anchor : Vertex)
    (step : ℕ → WalkStep) (maxdepth : ℕ) :
    (GenerateCameraSubpath anchor step maxdepth).2 ≤ maxdepth + 1 ∧
    (GenerateCameraSubpath anchor step maxdepth).2 =
      (GenerateCameraSubpath anchor step maxdepth).1.length ∧
    (GenerateCameraSubpath anchor step maxdepth).1.head? = some anchor ∧
    (GenerateLightSubpath anchor step maxdepth).2 ≤ maxdepth + 1 ∧
    (GenerateLightSubpath anchor step maxdepth).2 =
      (GenerateLightSubpath anchor step maxdepth).1.length ∧
    (GenerateLightSubpath anchor step maxdepth).1.head? = some anchor := by
  refine ⟨?_, rfl, rfl, ?_, rfl, rfl⟩ <;>
    simpa [GenerateCameraSubpath, GenerateLightSubpath] using
      randomWalk_length_le step 0 maxdepth

/-! ## Claim C2 -/

/-- C2: on every exit path of `ConnectBDPT` — early returns included — the
pdf fields of both subpath arrays hold exactly the values they held before
the call; the scope-guarded overwrites used during MIS evaluation never
leak out. -/
theorem connectBDPT_preserves_pdf_fields (store : PdfAddr → ℝ) (s t : ℕ)
    (connectable occluded : Bool) (recomputed : List (PdfAddr × ℝ))
    (weightEval : (PdfAddr → ℝ) → ℝ) (contrib : ℝ) :
    (connectBDPT store s t connectable occluded recomputed weightEval
        contrib).2 = store := by
  unfold connectBDPT
  split
  · rfl
  · exact withScopedAssigns_restores recomputed weightEval store

/-! ## Claim C8 -/

theorem moveChain_husks_target_none {ι α : Type} [Inhabited α]
    (g : ScopedAssign ι α) (k : ℕ) :
    ∀ h ∈ (ScopedAssign.moveChain g k).1, h.target = none := by
  induction k with
  | zero => simp [ScopedAssign.moveChain]
  | succ n ih =>
      intro h hmem
      simp only [ScopedAssign.moveChain, ScopedAssign.moveAssign,
        List.mem_append, List.mem_singleton] at hmem
      rcases hmem with hmem | hmem
      · exact ih h hmem
      · subst hmem; rfl

theorem moveChain_owner {ι α : Type} [Inhabited α]
    (g : ScopedAssign ι α) (k : ℕ) :
    (ScopedAssign.moveChain g k).2 = ⟨g.target, g.backup⟩ := by
  induction k with
  | zero => rfl
  | succ n ih => simp [ScopedAssign.moveChain, ScopedAssign.moveAssign, ih]

theorem destructAll_of_target_none {ι α : Type} [DecidableEq ι]
    (gs : List (ScopedAssign ι α)) (store : ι → α)
    (h : ∀ g ∈ gs, g.target = none) :
    ScopedAssign.destructAll gs store = store := by
  induction gs generalizing store with
  | nil => rfl
  | cons hd tl ih =>
      have hhd : hd.target = none := h hd (List.mem_cons_self hd tl)
      simp only [ScopedAssign.destructAll, List.foldl_cons, ScopedAssign.destruct, hhd]
      exact ih store (fun g hg => h g (List.mem_cons_of_mem hd hg))

/-- C8: `ScopedAssign` semantics — a null-target guard writes nothing and its
destructor restores nothing; a non-null guard saves the target's prior value
and installs the temporary; move-assignment transfers restore responsibility
by nulling the source, destructing a moved-from guard is a no-op, and for
any chain of moves the saved backup is written back exactly once, at the
destruction of the final owner. -/
theorem scopedAssign_semantics (ι α : Type) [DecidableEq ι] [Inhabited α]
    (store store2 : ι → α) (a : ι) (value : α) (g dst : ScopedAssign ι α)
    (k : ℕ) (hg : g.target = some a) :
    ((ScopedAssign.construct (none : Option ι) value store).2 = store ∧
      ScopedAssign.destruct (ScopedAssign.construct (none : Option ι) value store).1
        store2 = store2) ∧
    ((ScopedAssign.construct (some a) value store).1.backup = store a ∧
      (ScopedAssign.construct (some a) value store).1.target = some a ∧
      (ScopedAssign.construct (some a) value store).2 =
        Function.update store a value) ∧
    ((ScopedAssign.moveAssign dst g).1.target = g.target ∧
      (ScopedAssign.moveAssign dst g).1.backup = g.backup ∧
      (ScopedAssign.moveAssign dst g).2.target = none ∧
      ScopedAssign.destruct (ScopedAssign.moveAssign dst g).2 store2 = store2) ∧
    (ScopedAssign.destructAll (ScopedAssign.moveChain g k).1 store2 = store2 ∧
      ScopedAssign.destruct (ScopedAssign.moveChain g k).2 store2 =
        Function.update store2 a g.backup) := by
  refine ⟨⟨rfl, rfl⟩, ⟨rfl, rfl, rfl⟩, ⟨rfl, rfl, rfl, rfl⟩, ?_, ?_⟩
  · exact destructAll_of_target_none _ store2 (moveChain_husks_target_none g k)
  · rw [moveChain_owner]
    simp [ScopedAssign.destruct, hg]

/-- Witness for C8 at a concrete guard over a rational-valued store. -/
theorem scopedAssign_semantics_witness :
    (⟨some 0, (5 : ℚ)⟩ : ScopedAssign ℕ ℚ).target = some 0 ∧
      ScopedAssign.destruct
          (ScopedAssign.moveChain (⟨some 0, (5 : ℚ)⟩ : ScopedAssign ℕ ℚ) 2).2
          (fun _ => 0) =
        Function.update (fun _ => (0 : ℚ)) 0 5 := by
  have h := scopedAssign_semantics ℕ ℚ (fun _ => 0) (fun _ => 0) 0 7
    (⟨some 0, (5 : ℚ)⟩ : ScopedAssign ℕ ℚ) ⟨none, 0⟩ 2 rfl
  exact ⟨rfl, h.2.2.2.2⟩

/-! ## Claim C10 -/

/-- C10: a Surface vertex whose primitive carries an area light is reported
by `IsLight()`, and both `PdfLight` and `PdfLightOrigin` evaluate their
densities through that area light (the expressions below mention only `L`,
never an endpoint light field), so light-density queries are well-defined on
area-light surface hits. -/
theorem surface_area_light_queries (si : SurfaceInteraction) (L : Light)
    (w pf pr : ℝ) (dl : Bool) (scene : Scene) (u : Vertex)
    (lightDistr : Distribution1D)
    (hL : si.primitive.areaLight = some L) :
    (Vertex.mk VertexType.Surface w pf pr dl (.isect si)).IsLight = true ∧
    (Vertex.mk VertexType.Surface w pf pr dl (.isect si)).lightRef = some L ∧
    (Vertex.mk VertexType.Surface w pf pr dl (.isect si)).PdfLight scene u =
      (if u.IsOnSurface then
        L.pdfDir
            ⟨si.p, Vec3.smul
              (Real.sqrt (1 / (Vec3.sub u.GetPosition si.p).lengthSquared))
              (Vec3.sub u.GetPosition si.p), si.time⟩ si.n *
          (1 / (Vec3.sub u.GetPosition si.p).lengthSquared) *
          absDot u.GetGeoNormal
            (Vec3.smul
              (Real.sqrt (1 / (Vec3.sub u.GetPosition si.p).lengthSquared))
              (Vec3.sub u.GetPosition si.p))
      else
        L.pdfDir
            ⟨si.p, Vec3.smul
              (Real.sqrt (1 / (Vec3.sub u.GetPosition si.p).lengthSquared))
              (Vec3.sub u.GetPosition si.p), si.time⟩ si.n *
          (1 / (Vec3.sub u.GetPosition si.p).lengthSquared)) ∧
    (Vertex.mk VertexType.Surface w pf pr dl (.isect si)).PdfLightOrigin scene u
        lightDistr =
      L.pdfPos ⟨si.p, Vec3.normalize (Vec3.sub u.GetPosition si.p), si.time⟩ si.n *
        Vertex.pdfChoiceOf scene lightDistr L := by
  have hinf :
      (Vertex.mk VertexType.Surface w pf pr dl (.isect si)).IsInfiniteLight = false :=
    rfl
  refine ⟨?_, ?_, ?_, ?_⟩
  · simp [Vertex.IsLight, VertexPayload.isectD, hL]
  · simp [Vertex.lightRef, VertexPayload.isectD, hL]
  · simp only [Vertex.PdfLight, hinf, Bool.false_eq_true, if_false,
      Vertex.lightRef, VertexPayload.isectD, hL, Option.getD_some,
      Vertex.GetPosition, Vertex.GetTime, Vertex.GetGeoNormal,
      Vertex.GetInteraction]
  · simp only [Vertex.PdfLightOrigin, hinf, Bool.false_eq_true, if_false,
      Vertex.lightRef, VertexPayload.isectD, hL, Option.getD_some,
      Vertex.GetPosition, Vertex.GetTime, Vertex.GetGeoNormal,
      Vertex.GetInteraction]

/-- A concrete area light used by witnesses. -/
noncomputable def areaL : Light :=
  { id := 3, flags := LightFlags.area,
    pdfPos := fun _ _ => 1, pdfDir := fun _ _ => 1, pdfLi := fun _ _ => 0 }

/-- A concrete surface hit whose primitive carries `areaL`. -/
noncomputable def surfHit : SurfaceInteraction :=
  { primitive := ⟨some areaL⟩ }

noncomputable def sceneA : Scene := { lights := [areaL], worldRadius := 1 }

noncomputable def distrA : Distribution1D := { func := [1], funcInt := 1 }

/-- Witness for C10 at a concrete area-light surface vertex. -/
theorem surface_area_light_queries_witness :
    surfHit.primitive.areaLight = some areaL ∧
      (Vertex.mk VertexType.Surface 0 0 0 false (.isect surfHit)).IsLight = true ∧
      (Vertex.mk VertexType.Surface 0 0 0 false (.isect surfHit)).lightRef =
        some areaL := by
  have h := surface_area_light_queries surfHit areaL 0 0 0 false sceneA
    escapedVertex distrA rfl
  exact ⟨rfl, h.1, h.2.1⟩

/-! ## Claim C5 -/

/-- An implicit infinite-light vertex: Light type with a null light pointer. -/
noncomputable def infLightVertex : Vertex :=
  { type := VertexType.Light, interaction := .ei {} }

/-- A scene whose world bounding sphere has radius 1. -/
noncomputable def sceneOne : Scene := { lights := [], worldRadius := 1 }

/-- A surface target at distance 2 whose geometric normal is perpendicular
to the connecting direction. -/
noncomputable def surfTarget : Vertex :=
  { type := VertexType.Surface,
    interaction := .isect { p := ⟨2, 0, 0⟩, n := ⟨0, 1, 0⟩ } }

/-- Counterexample to C5 as stated: for the infinite-light vertex
`infLightVertex` and the on-surface target `surfTarget`, `PdfLight` does not
return `1/(π·r²)` — the source additionally multiplies by the target's
absolute cosine (here zero), so the result depends on the direction to the
target. -/
theorem pdfLight_infinite_counterexample :
    infLightVertex.PdfLight sceneOne surfTarget ≠
      1 / (Real.pi * sceneOne.worldRadius * sceneOne.worldRadius) := by
  have hsurf : surfTarget.IsOnSurface := by
    simp [Vertex.IsOnSurface, Vertex.GetGeoNormal, Vertex.GetInteraction,
      surfTarget, VertexPayload.isectD, Vec3.zero]
  have h0 : infLightVertex.PdfLight sceneOne surfTarget = 0 := by
    rw [Vertex.PdfLight]
    simp only [if_pos hsurf]
    have hinf : infLightVertex.IsInfiniteLight = true := rfl
    rw [hinf]
    simp only [if_true]
    have hdot : absDot surfTarget.GetGeoNormal
        (Vec3.smul
          (Real.sqrt
            (1 / (Vec3.sub surfTarget.GetPosition
              infLightVertex.GetPosition).lengthSquared))
          (Vec3.sub surfTarget.GetPosition infLightVertex.GetPosition)) = 0 := by
      simp [absDot, Vec3.dot, Vec3.smul, Vec3.sub, surfTarget, infLightVertex,
        Vertex.GetPosition, Vertex.GetGeoNormal, Vertex.GetInteraction,
        VertexPayload.isectD, VertexPayload.eiD, Vec3.zero]
    rw [hdot, mul_zero]
  rw [h0]
  have hr : sceneOne.worldRadius = 1 := rfl
  rw [hr, mul_one, mul_one]
  exact fun h => one_div_ne_zero Real.pi_ne_zero h.symm

/-- C5 amended: `IsInfiniteLight()` is true iff the vertex is a Light vertex
whose light reference is null or flagged `Infinite`; for such a vertex,
`PdfLight` returns exactly `1/(π·r²)` when the target does not lie on a
surface, and `1/(π·r²)` scaled by the target's absolute cosine against the
normalized connecting direction when it does. -/
theorem isInfiniteLight_iff_and_pdfLight (v u : Vertex) (scene : Scene) :
    (v.IsInfiniteLight = true ↔
      v.type = VertexType.Light ∧
        (v.interaction.eiD.light = none ∨
          ∃ l, v.interaction.eiD.light = some l ∧
            l.flags = LightFlags.infinite)) ∧
    (v.IsInfiniteLight = true → ¬u.IsOnSurface →
      v.PdfLight scene u =
        1 / (Real.pi * scene.worldRadius * scene.worldRadius)) ∧
    (v.IsInfiniteLight = true → u.IsOnSurface →
      v.PdfLight scene u =
        1 / (Real.pi * scene.worldRadius * scene.worldRadius) *
          absDot u.GetGeoNormal
            (Vec3.smul
              (Real.sqrt (1 / (Vec3.sub u.GetPosition v.GetPosition).lengthSquared))
              (Vec3.sub u.GetPosition v.GetPosition))) := by
  refine ⟨?_, ?_, ?_⟩
  · cases hopt : v.interaction.eiD.light with
    | none => simp [Vertex.IsInfiniteLight, hopt]
    | some l => simp [Vertex.IsInfiniteLight, hopt]
  · intro hinf hns
    rw [Vertex.PdfLight]
    simp only [if_neg hns, hinf, if_true]
  · intro hinf hs
    rw [Vertex.PdfLight]
    simp only [if_pos hs, hinf, if_true]

/-- A target vertex that does not lie on a surface (zero geometric normal). -/
noncomputable def offSurfaceTarget : Vertex :=
  { type := VertexType.Camera, interaction := .ei {} }

/-- Witness for the amended C5 at a concrete infinite-light vertex and a
concrete off-surface target. -/
theorem isInfiniteLight_pdfLight_witness :
    infLightVertex.IsInfiniteLight = true ∧
      ¬offSurfaceTarget.IsOnSurface ∧
      infLightVertex.PdfLight sceneOne offSurfaceTarget =
        1 / (Real.pi * sceneOne.worldRadius * sceneOne.worldRadius) :=
  ⟨rfl, fun h => h rfl,
    (isInfiniteLight_iff_and_pdfLight infLightVertex offSurfaceTarget
        sceneOne).2.1 rfl (fun h => h rfl)⟩

/-! ## Claim C3 -/

/-- The cosine of the angle between two vectors,
`cos θ = (a·b) / (‖a‖·‖b‖)`. -/
noncomputable def cosBetween (a b : Vec3) : ℝ :=
  Vec3.dot a b / (a.length * b.length)

/-- C3: for a finite connection at positive squared distance,
`ConvertDensity` returns `pdfDir·|cos θ|/d²` — `θ` the angle between the
connecting direction and `next`'s (unit) geometric normal, the cosine factor
applied only when `next` lies on a surface — and for an infinite-light
`next` it returns `pdfDir` unchanged. -/
theorem convertDensity_matches_formula (cur next : Vertex) (pdf : ℝ) :
    (next.IsInfiniteLight = true → ConvertDensity cur pdf next = pdf) ∧
    (next.IsInfiniteLight = false →
      0 < (Vec3.sub next.GetPosition cur.GetPosition).lengthSquared →
      (¬next.IsOnSurface →
        ConvertDensity cur pdf next =
          pdf / (Vec3.sub next.GetPosition cur.GetPosition).length ^ 2) ∧
      (next.IsOnSurface → next.GetGeoNormal.length = 1 →
        ConvertDensity cur pdf next =
          pdf * |cosBetween (Vec3.sub next.GetPosition cur.GetPosition)
              next.GetGeoNormal| /
            (Vec3.sub next.GetPosition cur.GetPosition).length ^ 2)) := by
  constructor
  · intro h; simp [ConvertDensity, h]
  · intro hinf hL
    constructor
    · intro hns
      rw [ConvertDensity]
      simp only [hinf, Bool.false_eq_true, if_false]
      rw [if_neg hns, Vec3.sq_length]
      field_simp
    · intro hs hn
      rw [ConvertDensity]
      simp only [hinf, Bool.false_eq_true, if_false]
      rw [if_pos hs]
      set w := Vec3.sub next.GetPosition cur.GetPosition with hw
      have hLne : w.lengthSquared ≠ 0 := ne_of_gt hL
      have hsne : Real.sqrt w.lengthSquared ≠ 0 :=
        ne_of_gt (Real.sqrt_pos.mpr hL)
      have habs : absDot next.GetGeoNormal
          (Vec3.smul (Real.sqrt (1 / w.lengthSquared)) w) =
          Real.sqrt (1 / w.lengthSquared) * |Vec3.dot next.GetGeoNormal w| := by
        rw [absDot, Vec3.dot_smul_right, abs_mul,
          abs_of_nonneg (Real.sqrt_nonneg _)]
      have hsqrt : Real.sqrt (1 / w.lengthSquared) =
          1 / Real.sqrt w.lengthSquared := by
        rw [one_div, one_div, Real.sqrt_inv]
      have hcos : |cosBetween w next.GetGeoNormal| =
          |Vec3.dot next.GetGeoNormal w| / Real.sqrt w.lengthSquared := by
        rw [cosBetween, hn, mul_one, abs_div, Vec3.dot_comm, Vec3.length,
          abs_of_nonneg (Real.sqrt_nonneg _)]
      rw [habs, hsqrt, hcos, Vec3.sq_length]
      field_simp

/-- A concrete surface target two units away along z with unit normal. -/
noncomputable def nextSurfV : Vertex :=
  { type := VertexType.Surface,
    interaction := .isect { p := ⟨0, 0, 2⟩, n := ⟨0, 0, 1⟩ } }

/-- Witness for C3 at concrete vertices. -/
theorem convertDensity_matches_formula_witness :
    nextSurfV.IsInfiniteLight = false ∧
      0 < (Vec3.sub nextSurfV.GetPosition
        offSurfaceTarget.GetPosition).lengthSquared ∧
      nextSurfV.IsOnSurface ∧ nextSurfV.GetGeoNormal.length = 1 ∧
      ConvertDensity offSurfaceTarget 3 nextSurfV =
        3 * |cosBetween
            (Vec3.sub nextSurfV.GetPosition offSurfaceTarget.GetPosition)
            nextSurfV.GetGeoNormal| /
          (Vec3.sub nextSurfV.GetPosition
            offSurfaceTarget.GetPosition).length ^ 2 := by
  have h1 : nextSurfV.IsInfiniteLight = false := rfl
  have h2 : 0 < (Vec3.sub nextSurfV.GetPosition
      offSurfaceTarget.GetPosition).lengthSquared := by
    simp [Vertex.GetPosition, Vertex.GetInteraction, VertexPayload.isectD,
      VertexPayload.eiD, nextSurfV, offSurfaceTarget, Vec3.sub,
      Vec3.lengthSquared, Vec3.dot, Vec3.zero]
  have h3 : nextSurfV.IsOnSurface := by
    simp [Vertex.IsOnSurface, Vertex.GetGeoNormal, Vertex.GetInteraction,
      VertexPayload.isectD, nextSurfV, Vec3.zero]
  have h4 : nextSurfV.GetGeoNormal.length = 1 := by
    have hn : nextSurfV.GetGeoNormal = ⟨0, 0, 1⟩ := rfl
    rw [hn, Vec3.length, Vec3.lengthSquared]
    simp [Vec3.dot]
  exact ⟨h1, h2, h3, h4,
    ((convertDensity_matches_formula offSurfaceTarget nextSurfV 3).2 h1 h2).2 h3 h4⟩

/-! ## Claim C1 -/

/-- C1: for every connected fused path (one whose strategy densities do not
all cancel), the balance-heuristic MIS weights of all valid (s′,t′)
decompositions of the same total path length sum to exactly 1. -/
theorem misWeights_sum_to_one (path : List FusedVertex)
    (hsum : ∑ i ∈ strategies path, strategyDensity path i ≠ 0) :
    ∑ s ∈ strategies path, misWeight path s = 1 := by
  have hmw : ∀ s ∈ strategies path,
      misWeight path s =
        strategyDensity path s / ∑ i ∈ strategies path, strategyDensity path i := by
    intro s hs
    by_cases hds : strategyDensity path s = 0
    · simp [misWeight, hds, div_zero]
    · rw [misWeight, ← Finset.sum_div, one_div_div]
  rw [Finset.sum_congr rfl hmw, ← Finset.sum_div, div_self hsum]

/-- A concrete three-vertex fused path with one delta vertex. -/
def fusedPath3 : List FusedVertex :=
  [⟨1/2, 1/3, false⟩, ⟨1/5, 1/7, true⟩, ⟨1/11, 1/13, false⟩]

theorem fusedPath3_all_pos :
    ∀ v ∈ fusedPath3, 0 < v.effFwd ∧ 0 < v.effRev := by
  intro v hv
  simp only [fusedPath3, List.mem_cons, List.not_mem_nil, or_false] at hv
  rcases hv with rfl | rfl | rfl <;> constructor <;>
    norm_num [FusedVertex.effFwd, FusedVertex.effRev]

theorem strategyDensity_pos (path : List FusedVertex)
    (h : ∀ v ∈ path, 0 < v.effFwd ∧ 0 < v.effRev) (s : ℕ) :
    0 < strategyDensity path s := by
  apply mul_pos
  · apply List.prod_pos
    intro x hx
    obtain ⟨v, hv, rfl⟩ := List.mem_map.mp hx
    exact (h v (List.take_subset _ _ hv)).1
  · apply List.prod_pos
    intro x hx
    obtain ⟨v, hv, rfl⟩ := List.mem_map.mp hx
    exact (h v (List.drop_subset _ _ hv)).2

/-- Witness for C1 at a concrete fused path. -/
theorem misWeights_sum_to_one_witness :
    (∑ i ∈ strategies fusedPath3, strategyDensity fusedPath3 i) ≠ 0 ∧
      ∑ s ∈ strategies fusedPath3, misWeight fusedPath3 s = 1 := by
  have hpos : 0 < ∑ i ∈ strategies fusedPath3, strategyDensity fusedPath3 i := by
    apply Finset.sum_pos
    · intro i _
      exact strategyDensity_pos fusedPath3 fusedPath3_all_pos i
    · simp [strategies, fusedPath3]
  exact ⟨ne_of_gt hpos, misWeights_sum_to_one fusedPath3 (ne_of_gt hpos)⟩
